import Mathlib

/-!
Shallow embedding of the WhatsApp watchdog / health-check subsystem of the
groundup-toolkit repository.

Sources embedded:
- scripts/whatsapp-watchdog.sh : probe via send test, one gateway restart,
  cooldown-gated alerting, persisted last-alert timestamp.
- scripts/whatsapp-healthcheck.sh : probe via status text, up to two restarts.
- the toolkit-wide health check script (6 numbered checks, summary, no exit
  statement).

External commands are modelled by their observable outcomes: each probe or
status call is an input to the run function (exit code and captured output).
Side-effect counters (probe attempts, gateway restarts, alert dispatches) and
the persisted state-file contents are returned in a run-result record.
The state file is modelled as Option Nat: none is a missing or unreadable
file, some v a file whose contents parse as the number v.
-/

namespace GroundUp

/-- Search for the first occurrence of pat as a contiguous sublist of s;
on a match, return the suffix of s that follows the matched occurrence.
This models the substring semantics of grep -q pat. -/
def findDrop (pat : List Char) : List Char → Option (List Char)
  | [] => if pat.isEmpty then some [] else none
  | c :: rest =>
    if pat.isPrefixOf (c :: rest) then some ((c :: rest).drop pat.length)
    else findDrop pat rest

/-- grep -q pat: the output contains pat as a substring (case sensitive). -/
def containsSub (pat s : String) : Bool :=
  (findDrop pat.toList s.toList).isSome

/-- Lower-case every character of a string. -/
def lowerStr (s : String) : String :=
  String.mk (s.toList.map Char.toLower)

/-- grep -qi pat: case-insensitive substring containment. -/
def containsSubI (pat s : String) : Bool :=
  containsSub (lowerStr pat) (lowerStr s)

/-- grep -qi with a pattern p1.*p2.*...: the patterns occur in order,
each one in the part of the output that follows the previous match. -/
def matchSeqI (pats : List String) (s : String) : Bool :=
  (pats.foldl (fun acc p => acc.bind (findDrop (lowerStr p).toList))
    (some (lowerStr s).toList)).isSome

/-- Observable outcome of one external gateway command: its exit code and
its captured stdout plus stderr. -/
structure ProbeOutcome where
  rc : Nat
  output : String

/-- try_send of whatsapp-watchdog.sh: runs the send-test command and returns
success exactly when the command exited with code 0; the captured output is
only logged, never inspected. All failures are normalized to false. -/
def try_send (p : ProbeOutcome) : Bool :=
  p.rc == 0

/-- check_whatsapp of whatsapp-healthcheck.sh: parses the status output.
Healthy when the output contains the substring connected but not the
substring disconnected; the exit code of the status command is not read. -/
def check_whatsapp (status : String) : Bool :=
  if containsSub ("connected") status then
    if containsSub ("disconnected") status then false
    else true
  else false

/-- The probe contract as the specification words it: healthy exactly when
the command exits with code 0 and the output carries no disconnected
marker. Stated from the spec for comparison against the source functions. -/
def specProbeHealthy (p : ProbeOutcome) : Bool :=
  (p.rc == 0) && !(containsSub ("disconnected") p.output)

/-- The four Twilio environment variables of whatsapp-watchdog.sh; an empty
string models an unset variable, as tested by the shell -z checks. -/
structure TwilioConfig where
  accountSid : String
  apiKeySid : String
  apiKeySecret : String
  fromNumber : String

/-- The guard of send_alert: true when any of the four Twilio variables is
unset or empty, in which case the call alert is skipped with a log line. -/
def twilioUnconfigured (c : TwilioConfig) : Bool :=
  (c.accountSid == "") || (c.apiKeySid == "") ||
    (c.apiKeySecret == "") || (c.fromNumber == "")

/-- cooldown=3600 from whatsapp-watchdog.sh: one hour in seconds. -/
def cooldown : Nat := 3600

/-- Observable effects of one send_alert invocation: how many voice calls
and emails were dispatched, which skip log lines were emitted, and the
state-file contents after the call returns. -/
structure AlertOutcome where
  voiceCalls : Nat
  emails : Nat
  skipLogTwilio : Bool
  skipLogCooldown : Bool
  state : Option Nat

/-- send_alert of whatsapp-watchdog.sh. If Twilio is unconfigured the call
alert is skipped and control falls through to the email send and the state
write. Otherwise the cooldown is checked: when now minus last_alert is
below cooldown the function returns early, sending nothing and leaving the
state file untouched; when the cooldown has expired the voice call is
placed, the email is sent, and now is written to the state file. -/
def send_alert (tw : TwilioConfig) (now last_alert : Nat) (st : Option Nat) :
    AlertOutcome :=
  if twilioUnconfigured tw then
    { voiceCalls := 0, emails := 1, skipLogTwilio := true,
      skipLogCooldown := false, state := some now }
  else if (now : Int) - (last_alert : Int) < (cooldown : Int) then
    { voiceCalls := 0, emails := 0, skipLogTwilio := false,
      skipLogCooldown := true, state := st }
  else
    { voiceCalls := 1, emails := 1, skipLogTwilio := false,
      skipLogCooldown := false, state := some now }

/-- Observable outcome of one whole watchdog run. -/
structure RunResult where
  probes : Nat
  restarts : Nat
  alerts : Nat
  voiceCalls : Nat
  emails : Nat
  skipLogTwilio : Bool
  state : Option Nat
  exitCode : Nat

/-- Main sequence of whatsapp-watchdog.sh. last_alert is read from the
state file, a missing or unreadable file yielding 0. Probe once; on
success write 0 to the state file and exit 0. On failure restart the
gateway and re-probe; on success write 0 and exit 0. Otherwise call
send_alert once and exit 1. outs n is the outcome of the n-th send-test
command the run would issue. -/
def watchdog_main (tw : TwilioConfig) (now : Nat) (st : Option Nat)
    (outs : Nat → ProbeOutcome) : RunResult :=
  let last_alert := st.getD 0
  if try_send (outs 0) then
    { probes := 1, restarts := 0, alerts := 0, voiceCalls := 0, emails := 0,
      skipLogTwilio := false, state := some 0, exitCode := 0 }
  else if try_send (outs 1) then
    { probes := 2, restarts := 1, alerts := 0, voiceCalls := 0, emails := 0,
      skipLogTwilio := false, state := some 0, exitCode := 0 }
  else
    let a := send_alert tw now last_alert st
    { probes := 2, restarts := 1, alerts := 1, voiceCalls := a.voiceCalls,
      emails := a.emails, skipLogTwilio := a.skipLogTwilio, state := a.state,
      exitCode := 1 }

/-- Observable outcome of one whatsapp-healthcheck.sh run: number of status
probes, number of gateway restarts, exit code. -/
structure HealthcheckRun where
  checks : Nat
  restarts : Nat
  exitCode : Nat

/-- Main sequence of whatsapp-healthcheck.sh: check, and on failure restart
and re-check, up to two restarts and three checks in total; exit 0 as soon
as a check succeeds, exit 1 when all three fail. status n is the output of
the n-th status command the run would issue. -/
def healthcheck_main (status : Nat → String) : HealthcheckRun :=
  if check_whatsapp (status 0) then
    { checks := 1, restarts := 0, exitCode := 0 }
  else if check_whatsapp (status 1) then
    { checks := 2, restarts := 1, exitCode := 0 }
  else if check_whatsapp (status 2) then
    { checks := 3, restarts := 2, exitCode := 0 }
  else
    { checks := 3, restarts := 2, exitCode := 1 }

/-- Inputs of one toolkit health-check run: the observable outcomes of the
external commands issued by its six numbered checks, in program order. -/
structure ToolkitInput where
  gwActive : Bool
  gwActiveAfterRestart : Bool
  healthOutput : String
  waOutput : String
  waOutputAfterRestart : String
  hbOutput : String
  diskPct : Nat
  memPct : Nat
  camofoxHealth : String
  camofoxHealthAfterStart : String
  logSizesMB : List Nat

/-- Observable outcome of one toolkit health-check run: the final FAILURES
and WARNINGS counters, the number of send_alert emails, and the process
exit code. -/
structure ToolkitResult where
  failures : Nat
  warnings : Nat
  alerts : Nat
  exitCode : Nat

/-- The WhatsApp connection test of the toolkit health check:
grep -qi on the pattern linked.*running.*connected. -/
def waFullyConnected (s : String) : Bool :=
  matchSeqI [("linked"), ("running"), ("connected")] s

/-- The toolkit-wide health check script. Check 1 restarts an inactive
gateway and alerts when the restart fails; check 2 probes the gateway RPC;
check 3 tests the WhatsApp connection with one restart and re-check,
alerting when it stays down; check 4 warns on disabled heartbeats; check 5
warns on high disk or memory use and alerts on high disk use; check 5b
restarts a dead Camofox; check 6 warns per oversized log file. The script
has no exit statement, so its exit code is 0 on every path. -/
def toolkit_health (inp : ToolkitInput) : ToolkitResult :=
  let gw : Nat × Nat :=
    if inp.gwActive then (0, 0)
    else if inp.gwActiveAfterRestart then (1, 0)
    else (2, 1)
  let rpcFails : Nat := if containsSubI ("linked") inp.healthOutput then 0 else 1
  let wa : Nat × Nat × Nat :=
    if waFullyConnected inp.waOutput then (0, 0, 0)
    else if containsSubI ("linked") inp.waOutput then
      if waFullyConnected inp.waOutputAfterRestart then (0, 1, 0) else (1, 1, 1)
    else
      if waFullyConnected inp.waOutputAfterRestart then (1, 0, 0) else (2, 0, 1)
  let hbWarns : Nat := if containsSubI ("disabled") inp.hbOutput then 1 else 0
  let disk : Nat × Nat := if 90 ≤ inp.diskPct then (1, 1) else (0, 0)
  let memWarns : Nat := if 90 ≤ inp.memPct then 1 else 0
  let cam : Nat × Nat :=
    if containsSub ("\"ok\":true") inp.camofoxHealth then (0, 0)
    else if containsSub ("\"ok\":true") inp.camofoxHealthAfterStart then (0, 1)
    else (1, 1)
  let logWarns : Nat := (inp.logSizesMB.filter (fun n => decide (500 ≤ n))).length
  { failures := gw.1 + rpcFails + wa.1 + cam.1,
    warnings := wa.2.1 + hbWarns + disk.1 + memWarns + cam.2 + logWarns,
    alerts := gw.2 + wa.2.2 + disk.2,
    exitCode := 0 }

/-- Concrete configuration with all four Twilio variables unset. -/
def noTwilio : TwilioConfig :=
  { accountSid := "", apiKeySid := "", apiKeySecret := "", fromNumber := "" }

/-- Concrete configuration with all four Twilio variables set. -/
def someTwilio : TwilioConfig :=
  { accountSid := "AC1", apiKeySid := "SK1", apiKeySecret := "s3cr3t",
    fromNumber := "+15550001111" }

/-- Concrete failing probe outcome: non-zero exit code. -/
def failProbe : ProbeOutcome := { rc := 1, output := "failed to send" }

/-- Concrete healthy probe outcome: exit code 0. -/
def okProbe : ProbeOutcome := { rc := 0, output := "sent" }

/-- Concrete toolkit health-check input: the gateway is inactive and its
restart fails, while every later check is healthy. -/
def gwDownInput : ToolkitInput :=
  { gwActive := false, gwActiveAfterRestart := false,
    healthOutput := "gateway: linked", waOutput := "linked running connected",
    waOutputAfterRestart := "", hbOutput := "", diskPct := 10, memPct := 10,
    camofoxHealth := "\"ok\":true", camofoxHealthAfterStart := "",
    logSizesMB := [] }

/-- Helper: once the cooldown has expired, send_alert dispatches the email
and records now in the state file, for either Twilio configuration. -/
theorem send_alert_past_cooldown (tw : TwilioConfig) (now la : Nat)
    (st : Option Nat) (h : ¬((now : Int) - (la : Int) < (cooldown : Int))) :
    (send_alert tw now la st).emails = 1 ∧
    (send_alert tw now la st).state = some now := by
  unfold send_alert
  split_ifs <;> exact ⟨rfl, rfl⟩

/-! ## Claims -/

/-- Claim C1, counterexample: with every status probe failing, a single
invocation of whatsapp-healthcheck.sh performs 3 probe attempts and 2
gateway restarts, exceeding the claimed bounds of at most 2 probes and at
most 1 recovery action. -/
theorem healthcheck_exceeds_claimed_bounds_cx :
    ¬((healthcheck_main (fun _ => "")).checks ≤ 2 ∧
      (healthcheck_main (fun _ => "")).restarts ≤ 1) := by
  decide

/-- Claim C1 (amended): every whatsapp-watchdog.sh invocation performs at
most 2 probe attempts and at most 1 recovery action, and every
whatsapp-healthcheck.sh invocation performs at most 3 probe attempts and
at most 2 recovery actions, for all sequences of probe outcomes. -/
theorem probe_and_recovery_bounds :
    (∀ (tw : TwilioConfig) (now : Nat) (st : Option Nat)
        (outs : Nat → ProbeOutcome),
      (watchdog_main tw now st outs).probes ≤ 2 ∧
      (watchdog_main tw now st outs).restarts ≤ 1) ∧
    (∀ status : Nat → String,
      (healthcheck_main status).checks ≤ 3 ∧
      (healthcheck_main status).restarts ≤ 2) := by
  constructor
  · intro tw now st outs
    unfold watchdog_main
    split_ifs <;> simp
  · intro status
    unfold healthcheck_main
    split_ifs <;> simp

/-- Claim C2, evaluation at the failing input: with the Twilio credentials
unset, the last alert recorded at epoch 1000, the run at epoch 2800 (1800
seconds later, inside the 3600 second cooldown) and both probes failing,
the watchdog still dispatches the email alert and overwrites the persisted
timestamp with 2800. The cooldown guard sits inside the Twilio branch of
send_alert, so the email path is never rate limited. -/
theorem email_alert_ignores_cooldown :
    (watchdog_main noTwilio 2800 (some 1000) (fun _ => failProbe)).emails = 1 ∧
    (watchdog_main noTwilio 2800 (some 1000) (fun _ => failProbe)).state =
      some 2800 := by
  decide

/-- Claim C3, counterexample: a toolkit health-check run in which the
gateway is down and fails to restart records 2 failures and attempts 1
escalation, yet the process exit code is 0, not 1: the script has no exit
statement after its summary. -/
theorem toolkit_exit_zero_on_failure_cx :
    0 < (toolkit_health gwDownInput).failures ∧
    (toolkit_health gwDownInput).alerts = 1 ∧
    (toolkit_health gwDownInput).exitCode ≠ 1 := by
  decide

/-- Claim C3 (amended): for whatsapp-watchdog.sh, the exit code is 1 with
exactly one escalation attempt when both probes fail, and the exit code is
0 with no escalation otherwise; the toolkit health-check script, by
contrast, exits 0 on every path regardless of recorded failures. -/
theorem exit_and_escalation_amended :
    (∀ (tw : TwilioConfig) (now : Nat) (st : Option Nat)
        (outs : Nat → ProbeOutcome),
      (watchdog_main tw now st outs).exitCode =
        (if try_send (outs 0) || try_send (outs 1) then 0 else 1) ∧
      (watchdog_main tw now st outs).alerts =
        (if try_send (outs 0) || try_send (outs 1) then 0 else 1)) ∧
    (∀ inp : ToolkitInput, (toolkit_health inp).exitCode = 0) := by
  constructor
  · intro tw now st outs
    unfold watchdog_main
    split_ifs with h0 h1 <;> simp_all
  · intro inp
    rfl

/-- Claim C4, counterexample: the send-test command exits 0 while its
output carries the disconnected marker; try_send reports healthy, but the
claimed characterization (exit 0 and no disconnected marker) says
unhealthy, so the two disagree at this input. -/
theorem probe_spec_mismatch_cx :
    try_send { rc := 0, output := "disconnected" } = true ∧
    specProbeHealthy { rc := 0, output := "disconnected" } = false := by
  decide

/-- Claim C4 (amended): try_send reports healthy exactly when the send
command exits with code 0, ignoring the output, while check_whatsapp
reports healthy exactly when the status output contains the substring
connected and not the substring disconnected, ignoring the exit code;
every other outcome yields unhealthy rather than an error. -/
theorem probe_healthy_characterization :
    (∀ p : ProbeOutcome, try_send p = true ↔ p.rc = 0) ∧
    (∀ s : String, check_whatsapp s = true ↔
      (containsSub ("connected") s = true ∧
       containsSub ("disconnected") s = false)) := by
  constructor
  · intro p
    simp [try_send]
  · intro s
    unfold check_whatsapp
    split_ifs <;> simp_all

/-- Claim C5: with the persisted timestamp T, a failing run at time T +
3700 (past the 3600 second cooldown) dispatches the alert, with exactly
one escalation and one email, and the persisted timestamp becomes T +
3700; this holds for every credential configuration. -/
theorem alert_after_cooldown_expiry (T : Nat) (tw : TwilioConfig)
    (outs : Nat → ProbeOutcome)
    (h0 : try_send (outs 0) = false) (h1 : try_send (outs 1) = false) :
    (watchdog_main tw (T + 3700) (some T) outs).alerts = 1 ∧
    (watchdog_main tw (T + 3700) (some T) outs).emails = 1 ∧
    (watchdog_main tw (T + 3700) (some T) outs).state = some (T + 3700) := by
  have he := send_alert_past_cooldown tw (T + 3700) T (some T)
    (by push_cast [cooldown]; omega)
  unfold watchdog_main
  simp [h0, h1, he.1, he.2]

/-- Claim C5, witness at T = 0 with Twilio configured and both probes
failing. -/
theorem alert_after_cooldown_expiry_witness :
    try_send failProbe = false ∧
    ((watchdog_main someTwilio (0 + 3700) (some 0) (fun _ => failProbe)).alerts = 1 ∧
     (watchdog_main someTwilio (0 + 3700) (some 0) (fun _ => failProbe)).emails = 1 ∧
     (watchdog_main someTwilio (0 + 3700) (some 0) (fun _ => failProbe)).state =
       some (0 + 3700)) :=
  ⟨by decide,
   alert_after_cooldown_expiry 0 someTwilio (fun _ => failProbe)
     (by decide) (by decide)⟩

/-- Claim C6: whenever the first probe fails and the re-probe after the
gateway restart succeeds, the run exits 0 and the persisted timestamp is
reset to 0, for every prior state-file value. -/
theorem recovered_resets_state (tw : TwilioConfig) (now : Nat)
    (st : Option Nat) (outs : Nat → ProbeOutcome)
    (h0 : try_send (outs 0) = false) (h1 : try_send (outs 1) = true) :
    (watchdog_main tw now st outs).exitCode = 0 ∧
    (watchdog_main tw now st outs).state = some 0 := by
  unfold watchdog_main
  simp [h0, h1]

/-- Claim C6, witness with a prior timestamp of 999999. -/
theorem recovered_resets_state_witness :
    try_send failProbe = false ∧ try_send okProbe = true ∧
    ((watchdog_main someTwilio 42 (some 999999)
        (fun n => if n = 0 then failProbe else okProbe)).exitCode = 0 ∧
     (watchdog_main someTwilio 42 (some 999999)
        (fun n => if n = 0 then failProbe else okProbe)).state = some 0) :=
  ⟨by decide, by decide,
   recovered_resets_state someTwilio 42 (some 999999)
     (fun n => if n = 0 then failProbe else okProbe) (by decide) (by decide)⟩

/-- Claim C7: when the state file is missing, the run treats the prior
state as never alerted, so a failing run whose clock time is at least the
cooldown dispatches the alert: one escalation and one email, never a
failure of the run itself. -/
theorem missing_state_still_alerts (tw : TwilioConfig) (now : Nat)
    (outs : Nat → ProbeOutcome) (hcd : cooldown ≤ now)
    (h0 : try_send (outs 0) = false) (h1 : try_send (outs 1) = false) :
    (watchdog_main tw now none outs).alerts = 1 ∧
    (watchdog_main tw now none outs).emails = 1 := by
  have he := send_alert_past_cooldown tw now 0 none
    (by push_cast; omega)
  unfold watchdog_main
  simp [h0, h1, he.1]

/-- Claim C7, witness: missing state file, clock at 4000, Twilio
configured, both probes failing. -/
theorem missing_state_still_alerts_witness :
    cooldown ≤ 4000 ∧ try_send failProbe = false ∧
    ((watchdog_main someTwilio 4000 none (fun _ => failProbe)).alerts = 1 ∧
     (watchdog_main someTwilio 4000 none (fun _ => failProbe)).emails = 1) :=
  ⟨by decide, by decide,
   missing_state_still_alerts someTwilio 4000 (fun _ => failProbe)
     (by decide) (by decide) (by decide)⟩

/-- Claim C8: with any of the Twilio variables unset and both probes
failing, the run places no voice call, emits the skip log line, still
sends the email alert, and still exits 1. -/
theorem no_twilio_email_still_sent (tw : TwilioConfig) (now : Nat)
    (st : Option Nat) (outs : Nat → ProbeOutcome)
    (htw : twilioUnconfigured tw = true)
    (h0 : try_send (outs 0) = false) (h1 : try_send (outs 1) = false) :
    (watchdog_main tw now st outs).voiceCalls = 0 ∧
    (watchdog_main tw now st outs).skipLogTwilio = true ∧
    (watchdog_main tw now st outs).emails = 1 ∧
    (watchdog_main tw now st outs).exitCode = 1 := by
  unfold watchdog_main send_alert
  simp [h0, h1, htw]

/-- Claim C8, witness with the empty Twilio configuration. -/
theorem no_twilio_email_still_sent_witness :
    twilioUnconfigured noTwilio = true ∧ try_send failProbe = false ∧
    ((watchdog_main noTwilio 7000 (some 3) (fun _ => failProbe)).voiceCalls = 0 ∧
     (watchdog_main noTwilio 7000 (some 3) (fun _ => failProbe)).skipLogTwilio = true ∧
     (watchdog_main noTwilio 7000 (some 3) (fun _ => failProbe)).emails = 1 ∧
     (watchdog_main noTwilio 7000 (some 3) (fun _ => failProbe)).exitCode = 1) :=
  ⟨by decide, by decide,
   no_twilio_email_still_sent noTwilio 7000 (some 3) (fun _ => failProbe)
     (by decide) (by decide) (by decide)⟩

/-- Claim C9: two consecutive runs with a healthy gateway, the second
reading the state the first left behind, both exit 0 and leave identical
state-file contents. -/
theorem healthy_runs_idempotent (tw : TwilioConfig) (n1 n2 : Nat)
    (st : Option Nat) (outs1 outs2 : Nat → ProbeOutcome)
    (h1 : try_send (outs1 0) = true) (h2 : try_send (outs2 0) = true) :
    (watchdog_main tw n1 st outs1).exitCode = 0 ∧
    (watchdog_main tw n2 (watchdog_main tw n1 st outs1).state outs2).exitCode = 0 ∧
    (watchdog_main tw n1 st outs1).state =
      (watchdog_main tw n2 (watchdog_main tw n1 st outs1).state outs2).state := by
  unfold watchdog_main
  simp [h1, h2]

/-- Claim C9, witness: two healthy runs from a stale prior state. -/
theorem healthy_runs_idempotent_witness :
    try_send okProbe = true ∧
    ((watchdog_main someTwilio 100 (some 77) (fun _ => okProbe)).exitCode = 0 ∧
     (watchdog_main someTwilio 200
        (watchdog_main someTwilio 100 (some 77) (fun _ => okProbe)).state
        (fun _ => okProbe)).exitCode = 0 ∧
     (watchdog_main someTwilio 100 (some 77) (fun _ => okProbe)).state =
       (watchdog_main someTwilio 200
          (watchdog_main someTwilio 100 (some 77) (fun _ => okProbe)).state
          (fun _ => okProbe)).state) :=
  ⟨by decide,
   healthy_runs_idempotent someTwilio 100 200 (some 77)
     (fun _ => okProbe) (fun _ => okProbe) (by decide) (by decide)⟩

/-- Claim C10: whenever a run exits 0, or any of its probes succeeds, the
persisted timestamp is overwritten with 0 and the exit code is 0,
regardless of the prior state-file contents and of whether any alert was
ever fired. -/
theorem probe_success_zeroes_state (tw : TwilioConfig) (now : Nat)
    (st : Option Nat) (outs : Nat → ProbeOutcome)
    (h : (watchdog_main tw now st outs).exitCode = 0 ∨
      try_send (outs 0) = true ∨ try_send (outs 1) = true) :
    (watchdog_main tw now st outs).state = some 0 ∧
    (watchdog_main tw now st outs).exitCode = 0 := by
  unfold watchdog_main at *
  cases hb0 : try_send (outs 0) <;> cases hb1 : try_send (outs 1) <;> simp_all

/-- Claim C10, witness: a healthy run from a stale prior timestamp. -/
theorem probe_success_zeroes_state_witness :
    (watchdog_main noTwilio 5 (some 424242) (fun _ => okProbe)).state = some 0 ∧
    (watchdog_main noTwilio 5 (some 424242) (fun _ => okProbe)).exitCode = 0 :=
  probe_success_zeroes_state noTwilio 5 (some 424242) (fun _ => okProbe)
    (Or.inr (Or.inl (by decide)))

end GroundUp
